import Mathlib

/-!
Shallow embedding of `obsei/source/twitter_source.py` (TwitterSource).

Python dictionaries are modelled as association lists of `String × Val`
preserving insertion order (Python 3.7+ dict semantics): assignment to an
existing key updates the value in place, assignment to a fresh key appends
at the end.  `None` is `Val.vnull`; an optional string parameter whose only
observable use is truthiness (`if query:`) is modelled as a `String`, the
empty string standing for both `None` and `""`; an optional list parameter
is modelled as a `List`, `[]` standing for both `None` and the empty list
(Python truthiness treats these the same everywhere in this module).

External collaborators (the text cleaner `preprocessor` and the
`searchtweets` client) are parameters of the functions that call them,
as the spec treats them as opaque.
-/

namespace Obsei

/-- A Python value as it appears in this module: `None`, a string, an int,
a dict (record), or a list. -/
inductive Val where
  | vnull : Val
  | vstr : String → Val
  | vint : Int → Val
  | vrec : List (String × Val) → Val
  | vlist : List Val → Val
deriving Repr

/-- A Python dict with string keys, in insertion order. -/
abbrev Rec := List (String × Val)

/-- `k in d` for a Python dict. -/
def hasKey (r : Rec) (k : String) : Bool :=
  r.any (fun p => p.1 == k)

/-- `d[k]` lookup, `none` when the key is absent (Python raises `KeyError`). -/
def getVal (r : Rec) (k : String) : Option Val :=
  (r.find? (fun p => p.1 == k)).map (fun p => p.2)

/-- `d[k]` lookup with `vnull` default (used where the source guards presence). -/
def getD (r : Rec) (k : String) : Val :=
  (getVal r k).getD Val.vnull

/-- `d[k] = v`: update the first binding of `k` in place, else append. -/
def setKey (r : Rec) (k : String) (v : Val) : Rec :=
  match r with
  | [] => [(k, v)]
  | (k', v') :: rest => if k' == k then (k, v) :: rest else (k', v') :: setKey rest k v

/-- A dict keyed by arbitrary `Val`s (the `user_map`, keyed by `user["id"]`).
Equality of keys uses structural equality of the embedded values. -/
abbrev VDict := List (Val × Rec)

mutual
/-- Structural (Python `==`) equality on embedded values. -/
def Val.beq : Val → Val → Bool
  | .vnull, .vnull => true
  | .vstr a, .vstr b => a == b
  | .vint a, .vint b => a == b
  | .vrec a, .vrec b => beqFields a b
  | .vlist a, .vlist b => beqItems a b
  | _, _ => false

def beqFields : List (String × Val) → List (String × Val) → Bool
  | [], [] => true
  | (k, v) :: xs, (k', v') :: ys => k == k' && Val.beq v v' && beqFields xs ys
  | _, _ => false

def beqItems : List Val → List Val → Bool
  | [], [] => true
  | x :: xs, y :: ys => Val.beq x y && beqItems xs ys
  | _, _ => false
end

instance : BEq Val := ⟨Val.beq⟩

/-- `k in user_map` for the `Val`-keyed dict. -/
def vhasKey (m : VDict) (k : Val) : Bool :=
  m.any (fun p => Val.beq p.1 k)

/-- `user_map.get(k)`, defaulting to the empty record. -/
def vget (m : VDict) (k : Val) : Rec :=
  ((m.find? (fun p => Val.beq p.1 k)).map (fun p => p.2)).getD []

/-- `user_map[k] = v`: update first binding in place, else append. -/
def vset (m : VDict) (k : Val) (v : Rec) : VDict :=
  match m with
  | [] => [(k, v)]
  | (k', v') :: rest => if Val.beq k' k then (k, v) :: rest else (k', v') :: vset rest k v

/-! ## Module constants (`twitter_source.py` lines 13-30) -/

def DEFAULT_MAX_TWEETS : Nat := 10

def DEFAULT_OPERATORS : List String := ["-is:reply", "-is:retweet"]

/-! ## `TwitterSourceConfig` (lines 33-69)

Only the fields observable through the embedded operations are kept; the
field-selection lists and pagination cursors are passed through verbatim to
the opaque search collaborator and never inspected by this module. -/

structure TwitterSourceConfig where
  twitter_config_filename : String := ""
  query : String := ""
  keywords : List String := []
  hashtags : List String := []
  usernames : List String := []
  operators : List String := DEFAULT_OPERATORS
  max_tweets : Nat := DEFAULT_MAX_TWEETS
deriving Repr

/-! ## Query builder: `TwitterSource._generate_query_string` (lines 145-182) -/

/-- Python `sep.join(tokens)`. -/
def pyJoin (sep : String) : List String → String
  | [] => ""
  | [x] => x
  | x :: y :: xs => x ++ sep ++ pyJoin sep (y :: xs)

/-- Lines 156-165: the `or_tokens` list, one group per truthy category in
the fixed order `[keywords, hashtags, usernames]`.  The inner
`len(tokens) > 0` test and its `else` branch are kept although the branch
is unreachable (a truthy Python list is non-empty). -/
def or_tokens_of (keywords hashtags usernames : List String) : List String :=
  ([keywords, hashtags, usernames]).foldl
    (fun acc tokens =>
      if tokens ≠ [] then
        if tokens.length > 0 then
          acc ++ ["(" ++ pyJoin " OR " tokens ++ ")"]
        else
          acc ++ [pyJoin "" tokens]
      else acc)
    []

/-- Lines 167-174: the `or_query_str`, again with the unreachable
`len(or_tokens) > 0` else-branch kept. -/
def or_query_of (keywords hashtags usernames : List String) : String :=
  let or_tokens := or_tokens_of keywords hashtags usernames
  if or_tokens ≠ [] then
    if or_tokens.length > 0 then pyJoin " OR " or_tokens
    else pyJoin "" or_tokens
  else ""

/-- `TwitterSource._generate_query_string` (lines 145-182). -/
def generate_query_string (query : String)
    (keywords hashtags usernames operators : List String) : String :=
  if query ≠ "" then query
  else
    let or_query_str := or_query_of keywords hashtags usernames
    let and_tokens : List String :=
      if operators ≠ [] then [pyJoin " " operators] else []
    let and_query_str :=
      if and_tokens ≠ [] then " (" ++ pyJoin " " and_tokens ++ ")" else ""
    or_query_str ++ and_query_str

/-! ## Text-cleaning collaborator interface (`preprocessor`)

`parse(text)` yields an object whose `.urls` is a list of tokens with a
matched text and an end index; `clean(text)` yields sanitized text.  Both
are opaque collaborators, passed as function parameters. -/

/-- One parsed URL token: its matched text (`match` in the source, renamed
because `match` is reserved in Lean) and its end index in the text. -/
structure UrlInfo where
  url_match : String
  end_index : Nat
deriving Repr

/-- The result of `preprocessor.parse`: the list of URL tokens. -/
structure ParsedTweet where
  urls : List UrlInfo
deriving Repr

/-- `TwitterSource.get_tweet_url` (lines 199-212): return `None` when no
URLs were parsed, else the match of the first URL token whose end index
equals `len(tweet_text)` (`None` when there is no such token). -/
def get_tweet_url (parse : String → ParsedTweet) (tweet_text : String) : Option String :=
  let parsed := parse tweet_text
  if parsed.urls.isEmpty then none
  else ((parsed.urls.find? (fun u => u.end_index == tweet_text.length)).map
    (fun u => u.url_match))

/-- `SourceResponse` as constructed by this module. -/
structure SourceResponse where
  processed_text : String
  meta : Rec
  source_name : String
deriving Repr

/-- Embed an `Option String` as the Python value stored under `tweet_url`. -/
def optStrVal : Option String → Val
  | none => Val.vnull
  | some s => Val.vstr s

/-- The string content of a value (`tweet["text"]` is a string). -/
def valStr : Val → String
  | Val.vstr s => s
  | _ => ""

/-- `TwitterSource.name` (line 73). -/
def twitterSourceName : String := "Twitter"

/-- `TwitterSource.get_source_output` (lines 184-193).  `tweet["text"]` on a
record without `"text"` raises `KeyError`, modelled as `none`.  The function
mutates its argument (line 188 adds `tweet_url`); the model returns the
`SourceResponse` together with the mutated record, which is also the very
record stored in the response's `meta` field (Python aliasing). -/
def get_source_output (parse : String → ParsedTweet) (clean : String → String)
    (tweet : Rec) : Option (SourceResponse × Rec) :=
  match getVal tweet "text" with
  | none => none
  | some tv =>
      let text := valStr tv
      let tweet_url := get_tweet_url parse text
      let processed_text := clean text
      let tweet' := setKey tweet "tweet_url" (optStrVal tweet_url)
      some ({ processed_text := processed_text, meta := tweet',
              source_name := twitterSourceName }, tweet')

/-! ## Result reshaping inside `TwitterSource.lookup` (lines 116-143) -/

/-- The value under `"users"` of a users-page, as the list of user records. -/
def valRecs : Val → List Rec
  | Val.vlist items => items.filterMap (fun v =>
      match v with
      | Val.vrec r => some r
      | _ => none)
  | _ => []

/-- One iteration of the classification loop (lines 119-125): a record with
`"text"` is appended to the tweets, else one with `"users"` replaces the
users list, else one with `"meta"` replaces the meta info, else it is
ignored.  The accumulator is `(tweets, users, meta_info)`. -/
def classifyStep (acc : List Rec × List Rec × Option Val) (raw : Rec) :
    List Rec × List Rec × Option Val :=
  if hasKey raw "text" then (acc.1 ++ [raw], acc.2.1, acc.2.2)
  else if hasKey raw "users" then (acc.1, valRecs (getD raw "users"), acc.2.2)
  else if hasKey raw "meta" then (acc.1, acc.2.1, some (getD raw "meta"))
  else acc

/-- The whole classification loop over `tweets_output`. -/
def partitionResults (tweets_output : List Rec) : List Rec × List Rec × Option Val :=
  tweets_output.foldl classifyStep ([], [], none)

/-- Lines 128-131: the `user_map` is populated only when the users list is
non-empty and its first record has an `"id"` key; then every user is stored
under its `"id"` value. -/
def build_user_map (users : List Rec) : VDict :=
  if users.length > 0 && hasKey (users.headD []) "id" then
    users.foldl (fun m user => vset m (getD user "id") user) []
  else []

/-- Lines 137-139: a tweet with an `"author_id"` present in `user_map` gets
the full author record attached under `"author_info"`; otherwise it is left
unchanged. -/
def attach_author (user_map : VDict) (tweet : Rec) : Rec :=
  if hasKey tweet "author_id" && vhasKey user_map (getD tweet "author_id") then
    setKey tweet "author_info" (Val.vrec (vget user_map (getD tweet "author_id")))
  else tweet

/-! ## `TwitterSource.lookup` (lines 75-143)

The `searchtweets` collaborator is abstracted as one function `collect`
from the built query string to the list of raw result pages (composing
`load_credentials`, `gen_request_parameters` and `collect_results`, whose
internals are out of scope).  An exception is `Except.error`. -/

/-- The guard condition of line 76, exactly as written in the source:
`not query and not keywords and not hashtags and usernames` — note the
missing negation on `usernames`. -/
def lookupGuard (config : TwitterSourceConfig) : Bool :=
  config.query == "" && config.keywords.isEmpty && config.hashtags.isEmpty &&
    !config.usernames.isEmpty

/-- Normalization of the reshaped tweets (the loop of lines 136-142, minus
the author attachment which `attach_author` performs). -/
def collectOutputs (parse : String → ParsedTweet) (clean : String → String) :
    List Rec → Except String (List SourceResponse)
  | [] => Except.ok []
  | tweet :: rest =>
      match get_source_output parse clean tweet with
      | none => Except.error "KeyError: text"
      | some (resp, _) =>
          match collectOutputs parse clean rest with
          | Except.error e => Except.error e
          | Except.ok rs => Except.ok (resp :: rs)

/-- `TwitterSource.lookup` (lines 75-143). -/
def lookup (parse : String → ParsedTweet) (clean : String → String)
    (collect : String → List Rec) (config : TwitterSourceConfig) :
    Except String (List SourceResponse) :=
  if lookupGuard config then
    Except.error
      "At least one non empty parameter required (query, keywords, hashtags, and usernames)"
  else
    let query := generate_query_string config.query config.keywords
      config.hashtags config.usernames config.operators
    let tweets_output := collect query
    if tweets_output.isEmpty then Except.ok []
    else
      let parts := partitionResults tweets_output
      let user_map := build_user_map parts.2.1
      let tweets := parts.1.map (attach_author user_map)
      collectOutputs parse clean tweets

/-! ## Helper lemmas about the dict operations -/

theorem getVal_setKey_self (r : Rec) (k : String) (v : Val) :
    getVal (setKey r k v) k = some v := by
  induction r with
  | nil => simp [setKey, getVal, List.find?]
  | cons p rest ih =>
      obtain ⟨k', v'⟩ := p
      by_cases h : k' = k
      · subst h
        simp [setKey, getVal, List.find?]
      · have hb : (k' == k) = false := by simpa using h
        simp only [setKey, hb, Bool.false_eq_true, if_false]
        simp only [getVal, List.find?, hb]
        simpa [getVal] using ih

theorem getVal_setKey_ne (r : Rec) (k k' : String) (v : Val) (h : k' ≠ k) :
    getVal (setKey r k v) k' = getVal r k' := by
  have hb' : (k == k') = false := by simpa using (Ne.symm h)
  induction r with
  | nil => simp [setKey, getVal, List.find?, hb']
  | cons p rest ih =>
      obtain ⟨k₀, v₀⟩ := p
      by_cases h₀ : k₀ = k
      · subst h₀
        simp [setKey, getVal, List.find?, hb']
      · have hb₀ : (k₀ == k) = false := by simpa using h₀
        simp only [setKey, hb₀, Bool.false_eq_true, if_false]
        by_cases h₁ : k₀ = k'
        · subst h₁
          simp [getVal, List.find?]
        · have hb₁ : (k₀ == k') = false := by simpa using h₁
          simp only [getVal, List.find?, hb₁]
          simpa [getVal] using ih

theorem hasKey_setKey (r : Rec) (k k' : String) (v : Val) :
    hasKey (setKey r k v) k' = (hasKey r k' || k' == k) := by
  induction r with
  | nil => simp [setKey, hasKey, BEq.comm]
  | cons p rest ih =>
      obtain ⟨k₀, v₀⟩ := p
      by_cases h₀ : k₀ = k
      · subst h₀
        by_cases h₁ : k₀ = k'
        · subst h₁; simp [setKey, hasKey]
        · simp [setKey, hasKey, h₁, Ne.symm h₁, BEq.comm]
      · simp only [setKey, beq_iff_eq, if_neg h₀, hasKey, List.any_cons]
        simp only [hasKey] at ih
        rw [ih]
        cases h₂ : (k₀ == k') <;> simp

theorem keys_setKey_of_absent (r : Rec) (k : String) (v : Val)
    (h : hasKey r k = false) :
    (setKey r k v).map Prod.fst = r.map Prod.fst ++ [k] := by
  induction r with
  | nil => simp [setKey]
  | cons p rest ih =>
      obtain ⟨k₀, v₀⟩ := p
      simp only [hasKey, List.any_cons, Bool.or_eq_false_iff] at h
      obtain ⟨h₁, h₂⟩ := h
      simp only [setKey, h₁, Bool.false_eq_true, if_false, List.map_cons, List.cons_append]
      rw [ih]
      simp [hasKey, h₂]

theorem setKey_setKey (r : Rec) (k : String) (v v' : Val) :
    setKey (setKey r k v) k v' = setKey r k v' := by
  induction r with
  | nil => simp [setKey]
  | cons p rest ih =>
      obtain ⟨k₀, v₀⟩ := p
      by_cases h₀ : k₀ = k
      · subst h₀; simp [setKey]
      · simp [setKey, h₀, ih]

theorem hasKey_eq_isSome_getVal (r : Rec) (k : String) :
    hasKey r k = (getVal r k).isSome := by
  induction r with
  | nil => simp [hasKey, getVal]
  | cons p rest ih =>
      obtain ⟨k₀, v₀⟩ := p
      by_cases h₀ : k₀ = k
      · subst h₀; simp [hasKey, getVal, List.find?]
      · simp only [hasKey, List.any_cons, getVal, List.find?,
          show (k₀ == k) = false by simpa using h₀, Bool.false_or]
        simpa [hasKey, getVal] using ih

/-! ## Characterization of the query builder -/

theorem or_tokens_of_eq (ks hs us : List String) :
    or_tokens_of ks hs us =
      (([ks, hs, us]).filter (fun t => !t.isEmpty)).map
        (fun ts => "(" ++ pyJoin " OR " ts ++ ")") := by
  cases ks <;> cases hs <;> cases us <;>
    simp [or_tokens_of, List.filter]

theorem or_query_of_eq (ks hs us : List String) :
    or_query_of ks hs us = pyJoin " OR " (or_tokens_of ks hs us) := by
  unfold or_query_of
  by_cases h : or_tokens_of ks hs us = []
  · simp [h, pyJoin]
  · simp [h, List.length_pos.mpr h]

/-- C2: with no free-text query and no operators, the result is one
parenthesized group per non-empty category, in the fixed order keywords,
hashtags, usernames, joined across categories by " OR "; inside a group the
separator " OR " is inserted only between two or more terms (a one-term
group is just the term in parentheses), as the two accompanying equations
about the joining function make explicit. -/
theorem generate_query_string_or_groups (ks hs us : List String)
    (_h : ks ≠ [] ∨ hs ≠ [] ∨ us ≠ []) :
    generate_query_string "" ks hs us [] =
      pyJoin " OR " ((([ks, hs, us]).filter (fun t => !t.isEmpty)).map
        (fun ts => "(" ++ pyJoin " OR " ts ++ ")")) ∧
    (∀ t : String, pyJoin " OR " [t] = t) ∧
    (∀ (t t' : String) (ts : List String),
      pyJoin " OR " (t :: t' :: ts) = t ++ " OR " ++ pyJoin " OR " (t' :: ts)) := by
  refine ⟨?_, fun t => rfl, fun t t' ts => rfl⟩
  have hq : generate_query_string "" ks hs us [] = or_query_of ks hs us := by
    simp [generate_query_string]
  rw [hq, or_query_of_eq, or_tokens_of_eq]

/-- Witness for C2 at a concrete input: two keywords, no hashtags, one
username. -/
theorem generate_query_string_or_groups_witness :
    generate_query_string "" ["a", "b"] [] ["u"] [] = "(a OR b) OR (u)" := by
  have h := (generate_query_string_or_groups ["a", "b"] [] ["u"]
    (Or.inl (by decide))).1
  rw [h]
  rfl

/-- C3: a non-empty free-text query is returned verbatim; keywords,
hashtags, usernames and operators are ignored. -/
theorem generate_query_string_verbatim (q : String) (ks hs us ops : List String)
    (h : q ≠ "") : generate_query_string q ks hs us ops = q := by
  simp [generate_query_string, h]

/-- Witness for C3 at a concrete input with all other parameters non-null. -/
theorem generate_query_string_verbatim_witness :
    generate_query_string "explicit" ["foo"] ["#h"] ["u"] ["-is:reply"] = "explicit" :=
  generate_query_string_verbatim "explicit" ["foo"] ["#h"] ["u"] ["-is:reply"]
    (by decide)

/-- C4: with no free-text query, a non-empty operator list appends to the
or-clause a single space and the operators joined by single spaces inside
one pair of parentheses; an empty operator list leaves the or-clause
alone. -/
theorem generate_query_string_operators (ks hs us ops : List String) :
    (ops ≠ [] → generate_query_string "" ks hs us ops =
      or_query_of ks hs us ++ " (" ++ pyJoin " " ops ++ ")") ∧
    generate_query_string "" ks hs us [] = or_query_of ks hs us := by
  constructor
  · intro h
    simp [generate_query_string, h, pyJoin, String.append_assoc]
  · simp [generate_query_string]

/-- Witness for C4: the spec's concrete example, keywords=["foo","bar"]
with operators=["-is:reply"]. -/
theorem generate_query_string_operators_witness :
    generate_query_string "" ["foo", "bar"] [] [] ["-is:reply"] =
      "(foo OR bar) (-is:reply)" := by
  have h := (generate_query_string_operators ["foo", "bar"] [] [] ["-is:reply"]).1
    (by decide)
  rw [h]
  rfl

/-! ## The guard of `lookup` (claim C1) -/

/-- The configuration with query, keywords, hashtags and usernames all
empty/absent (all other fields at their Python defaults). -/
def allEmptyConfig : TwitterSourceConfig :=
  { query := "", keywords := [], hashtags := [], usernames := [] }

/-- C1 (code bug evidence): on a configuration whose four selector fields
are all empty, the guard of line 76 — `not query and not keywords and not
hashtags and usernames`, with no negation on `usernames` — evaluates to
false, so `lookup` does not raise the InvalidInput `AttributeError`: it
proceeds past the guard, invokes the collaborators, and (here, with a
collaborator returning no pages) returns an ordinary empty result. -/
theorem lookup_all_empty_does_not_raise :
    lookupGuard allEmptyConfig = false ∧
    (∀ (parse : String → ParsedTweet) (clean : String → String),
      lookup parse clean (fun _ => []) allEmptyConfig = Except.ok []) := by
  exact ⟨rfl, fun parse clean => rfl⟩

/-! ## Classification of raw result pages (claim C5) -/

/-- C5: `lookup` classifies each raw record by key presence in strict
priority order: a record with `"text"` is appended to the tweets; else one
with `"users"` replaces the users list; else one with `"meta"` replaces the
meta info; a record with none of these keys leaves the partition exactly as
if it had not been in the stream at all (silently dropped). -/
theorem partitionResults_classification (out₁ out₂ : List Rec) (r : Rec) :
    (hasKey r "text" = true →
      partitionResults (out₁ ++ [r]) =
        ((partitionResults out₁).1 ++ [r], (partitionResults out₁).2.1,
          (partitionResults out₁).2.2)) ∧
    (hasKey r "text" = false → hasKey r "users" = true →
      partitionResults (out₁ ++ [r]) =
        ((partitionResults out₁).1, valRecs (getD r "users"),
          (partitionResults out₁).2.2)) ∧
    (hasKey r "text" = false → hasKey r "users" = false →
      hasKey r "meta" = true →
      partitionResults (out₁ ++ [r]) =
        ((partitionResults out₁).1, (partitionResults out₁).2.1,
          some (getD r "meta"))) ∧
    (hasKey r "text" = false → hasKey r "users" = false →
      hasKey r "meta" = false →
      partitionResults (out₁ ++ r :: out₂) = partitionResults (out₁ ++ out₂)) := by
  refine ⟨?_, ?_, ?_, ?_⟩
  · intro ht
    simp [partitionResults, List.foldl_append, classifyStep, ht]
  · intro ht hu
    simp [partitionResults, List.foldl_append, classifyStep, ht, hu]
  · intro ht hu hm
    simp [partitionResults, List.foldl_append, classifyStep, ht, hu, hm]
  · intro ht hu hm
    have hstep : ∀ acc, classifyStep acc r = acc := by
      intro acc
      simp [classifyStep, ht, hu, hm]
    simp [partitionResults, List.foldl_append, List.foldl_cons, hstep]

/-- Witness for C5: a keyless record is dropped, a `"text"` record is kept
as a tweet, a record with both `"users"` and `"meta"` counts as a
users-page. -/
theorem partitionResults_classification_witness :
    partitionResults
        [[("junk", Val.vnull)], [("text", Val.vstr "t")],
          [("users", Val.vlist [Val.vrec [("id", Val.vstr "1")]]),
            ("meta", Val.vnull)]] =
      ([[("text", Val.vstr "t")]], [[("id", Val.vstr "1")]], none) := by
  have h1 := (partitionResults_classification [] [[("text", Val.vstr "t")],
    [("users", Val.vlist [Val.vrec [("id", Val.vstr "1")]]), ("meta", Val.vnull)]]
    [("junk", Val.vnull)]).2.2.2 rfl rfl rfl
  have h2 := (partitionResults_classification [[("text", Val.vstr "t")]] []
    [("users", Val.vlist [Val.vrec [("id", Val.vstr "1")]]),
      ("meta", Val.vnull)]).2.1 rfl rfl
  exact h1.trans h2

/-! ## Author map and author attachment (claim C6) -/

/-- C6: the author map is built only when the users list is non-empty and
its first record has an `"id"` key; when a tweet's `"author_id"` is a key
of the map, the full author record is attached under `"author_info"`; when
the users list is empty, or its first record lacks `"id"`, the map is empty
and no tweet is changed. -/
theorem build_user_map_attach (users : List Rec) (tweet : Rec) :
    (hasKey tweet "author_id" = true →
      vhasKey (build_user_map users) (getD tweet "author_id") = true →
      getVal (attach_author (build_user_map users) tweet) "author_info" =
        some (Val.vrec (vget (build_user_map users) (getD tweet "author_id")))) ∧
    (users = [] → build_user_map users = []) ∧
    (users ≠ [] → hasKey (users.headD []) "id" = false →
      build_user_map users = [] ∧
      attach_author (build_user_map users) tweet = tweet) := by
  refine ⟨?_, ?_, ?_⟩
  · intro ha hm
    simp [attach_author, ha, hm, getVal_setKey_self]
  · intro h
    simp [h, build_user_map]
  · intro hne hid
    have hm : build_user_map users = [] := by
      unfold build_user_map
      rw [hid]
      simp
    refine ⟨hm, ?_⟩
    rw [hm]
    simp [attach_author, vhasKey]


/-- Witness for C6: a two-user list with ids builds the map and the
matching tweet gets the author attached; a users list whose first record
lacks `"id"` yields the empty map and leaves the tweet unchanged. -/
theorem build_user_map_attach_witness :
    getVal (attach_author
        (build_user_map [[("id", Val.vstr "1"), ("name", Val.vstr "Ann")]])
        [("author_id", Val.vstr "1"), ("text", Val.vstr "hi")]) "author_info" =
      some (Val.vrec [("id", Val.vstr "1"), ("name", Val.vstr "Ann")]) ∧
    attach_author (build_user_map [[("name", Val.vstr "Bob")]])
        [("author_id", Val.vstr "1"), ("text", Val.vstr "hi")] =
      [("author_id", Val.vstr "1"), ("text", Val.vstr "hi")] := by
  constructor
  · exact (build_user_map_attach [[("id", Val.vstr "1"), ("name", Val.vstr "Ann")]]
      [("author_id", Val.vstr "1"), ("text", Val.vstr "hi")]).1 rfl rfl
  · exact ((build_user_map_attach [[("name", Val.vstr "Bob")]]
      [("author_id", Val.vstr "1"), ("text", Val.vstr "hi")]).2.2
      (by simp) rfl).2

/-! ## Trailing URL extraction (claim C7) -/

/-- C7: URL extraction returns the match of the first parsed URL token
whose end index equals the text length, and `none` when the parsed token
list has no URLs or no URL token ends exactly at the text length. -/
theorem get_tweet_url_trailing (parse : String → ParsedTweet) (text : String) :
    ((parse text).urls = [] → get_tweet_url parse text = none) ∧
    ((∀ u ∈ (parse text).urls, u.end_index ≠ text.length) →
      get_tweet_url parse text = none) ∧
    (∀ (l₁ l₂ : List UrlInfo) (u : UrlInfo),
      (parse text).urls = l₁ ++ u :: l₂ → u.end_index = text.length →
      (∀ u' ∈ l₁, u'.end_index ≠ text.length) →
      get_tweet_url parse text = some u.url_match) := by
  refine ⟨?_, ?_, ?_⟩
  · intro h
    simp [get_tweet_url, h]
  · intro h
    unfold get_tweet_url
    by_cases he : (parse text).urls.isEmpty
    · simp [he]
    · simp only [he, Bool.false_eq_true, if_false]
      have hn : (parse text).urls.find? (fun u => u.end_index == text.length) = none := by
        rw [List.find?_eq_none]
        intro u hu
        simpa using h u hu
      simp [hn]
  · intro l₁ l₂ u hurls hu hl₁
    unfold get_tweet_url
    have hne : (parse text).urls.isEmpty = false := by
      rw [hurls]
      cases l₁ <;> rfl
    simp only [hne, Bool.false_eq_true, if_false]
    rw [hurls]
    have h₁ : l₁.find? (fun u => u.end_index == text.length) = none := by
      rw [List.find?_eq_none]
      intro x hx
      simpa using hl₁ x hx
    have h₂ : (u :: l₂).find? (fun u => u.end_index == text.length) = some u :=
      List.find?_cons_of_pos _ (by simpa using hu)
    rw [List.find?_append, h₁, Option.none_or, h₂]
    rfl

/-- Witness for C7: the spec's two concrete examples — a trailing URL is
extracted, a non-trailing URL yields `none`. -/
theorem get_tweet_url_trailing_witness :
    get_tweet_url (fun _ => ⟨[⟨"https://x.co/abc", 31⟩]⟩)
        "Check this out https://x.co/abc" = some "https://x.co/abc" ∧
    get_tweet_url (fun _ => ⟨[⟨"https://x.co/abc", 16⟩]⟩)
        "https://x.co/abc is cool" = none := by
  constructor
  · exact (get_tweet_url_trailing (fun _ => ⟨[⟨"https://x.co/abc", 31⟩]⟩)
      "Check this out https://x.co/abc").2.2 [] [] ⟨"https://x.co/abc", 31⟩ rfl
      (by decide) (by simp)
  · exact (get_tweet_url_trailing (fun _ => ⟨[⟨"https://x.co/abc", 16⟩]⟩)
      "https://x.co/abc is cool").2.1 (by
        intro u hu
        simp only [List.mem_singleton] at hu
        subst hu
        decide)

/-! ## Empty result pages (claim C8) -/

/-- C8: when the configuration passes the guard and the search collaborator
returns no pages, `lookup` returns the empty list (an ordinary result, not
an error), with no reshaping or normalization performed. -/
theorem lookup_empty_pages (parse : String → ParsedTweet)
    (clean : String → String) (collect : String → List Rec)
    (config : TwitterSourceConfig)
    (hg : lookupGuard config = false)
    (hc : collect (generate_query_string config.query config.keywords
      config.hashtags config.usernames config.operators) = []) :
    lookup parse clean collect config = Except.ok [] := by
  simp [lookup, hg, hc]

/-- Witness for C8: a one-keyword configuration and a collaborator with no
results. -/
theorem lookup_empty_pages_witness :
    lookup (fun _ => ParsedTweet.mk []) (fun s => s) (fun _ => [])
      { query := "", keywords := ["foo"], hashtags := [], usernames := [] } =
      Except.ok [] :=
  lookup_empty_pages (fun _ => ParsedTweet.mk []) (fun s => s) (fun _ => [])
    { query := "", keywords := ["foo"], hashtags := [], usernames := [] } rfl rfl

/-! ## Normalization: idempotence and frame (claims C9 and C10) -/

/-- C9: normalization is idempotent — running `get_source_output` again on
the record it just produced (the mutated tweet, which is also the response
meta) yields a structurally equal response and record. -/
theorem get_source_output_idempotent (parse : String → ParsedTweet)
    (clean : String → String) (tweet : Rec) (resp : SourceResponse)
    (tweet' : Rec)
    (h : get_source_output parse clean tweet = some (resp, tweet')) :
    get_source_output parse clean tweet' = some (resp, tweet') := by
  unfold get_source_output at h ⊢
  cases hv : getVal tweet "text" with
  | none => simp [hv] at h
  | some tv =>
      simp only [hv, Option.some.injEq, Prod.mk.injEq] at h
      obtain ⟨hresp, htw⟩ := h
      subst hresp
      subst htw
      rw [getVal_setKey_ne tweet "tweet_url" "text" _ (by decide), hv]
      simp only [setKey_setKey]

/-- Witness for C9 at a concrete tweet. -/
theorem get_source_output_idempotent_witness :
    get_source_output (fun _ => ParsedTweet.mk []) (fun s => s)
        [("text", Val.vstr "hi"), ("tweet_url", Val.vnull)] =
      some ({ processed_text := "hi",
              meta := [("text", Val.vstr "hi"), ("tweet_url", Val.vnull)],
              source_name := "Twitter" },
            [("text", Val.vstr "hi"), ("tweet_url", Val.vnull)]) :=
  get_source_output_idempotent (fun _ => ParsedTweet.mk []) (fun s => s)
    [("text", Val.vstr "hi")] _ _ rfl

/-- C10: `get_source_output` mutates its input record — afterwards the
record has exactly the input's keys plus `"tweet_url"` (appended when it
was absent), carrying the extracted trailing URL (null when none), every
other key's value is unchanged, and the returned response's `meta` is that
same mutated record. -/
theorem get_source_output_frame (parse : String → ParsedTweet)
    (clean : String → String) (tweet : Rec) (resp : SourceResponse)
    (tweet' : Rec)
    (h : get_source_output parse clean tweet = some (resp, tweet')) :
    resp.meta = tweet' ∧
    getVal tweet' "tweet_url" =
      some (optStrVal (get_tweet_url parse (valStr (getD tweet "text")))) ∧
    (∀ k, k ≠ "tweet_url" → getVal tweet' k = getVal tweet k) ∧
    (∀ k, hasKey tweet' k = (hasKey tweet k || k == "tweet_url")) ∧
    (hasKey tweet "tweet_url" = false →
      tweet'.map Prod.fst = tweet.map Prod.fst ++ ["tweet_url"]) := by
  unfold get_source_output at h
  cases hv : getVal tweet "text" with
  | none => simp [hv] at h
  | some tv =>
      simp only [hv, Option.some.injEq, Prod.mk.injEq] at h
      obtain ⟨hresp, htw⟩ := h
      subst hresp
      subst htw
      refine ⟨rfl, ?_, ?_, ?_, ?_⟩
      · rw [getVal_setKey_self]
        simp [getD, hv]
      · intro k hk
        exact getVal_setKey_ne tweet "tweet_url" k _ hk
      · intro k
        exact hasKey_setKey tweet "tweet_url" k _
      · intro habs
        exact keys_setKey_of_absent tweet "tweet_url" _ habs

/-- Witness for C10 at a concrete tweet without a prior `tweet_url` key. -/
theorem get_source_output_frame_witness :
    ({ processed_text := "hi",
       meta := [("text", Val.vstr "hi"), ("id", Val.vstr "1"),
         ("tweet_url", Val.vnull)],
       source_name := "Twitter" } : SourceResponse).meta =
      [("text", Val.vstr "hi"), ("id", Val.vstr "1"), ("tweet_url", Val.vnull)] ∧
    getVal [("text", Val.vstr "hi"), ("id", Val.vstr "1"),
        ("tweet_url", Val.vnull)] "tweet_url" = some Val.vnull ∧
    getVal [("text", Val.vstr "hi"), ("id", Val.vstr "1"),
        ("tweet_url", Val.vnull)] "id" =
      getVal [("text", Val.vstr "hi"), ("id", Val.vstr "1")] "id" ∧
    ([("text", Val.vstr "hi"), ("id", Val.vstr "1"),
        ("tweet_url", Val.vnull)].map Prod.fst) =
      ([("text", Val.vstr "hi"), ("id", Val.vstr "1")].map Prod.fst) ++
        ["tweet_url"] := by
  have h := get_source_output_frame (fun _ => ParsedTweet.mk []) (fun s => s)
    [("text", Val.vstr "hi"), ("id", Val.vstr "1")]
    { processed_text := "hi",
      meta := [("text", Val.vstr "hi"), ("id", Val.vstr "1"),
        ("tweet_url", Val.vnull)],
      source_name := "Twitter" }
    [("text", Val.vstr "hi"), ("id", Val.vstr "1"), ("tweet_url", Val.vnull)]
    rfl
  exact ⟨h.1, h.2.1, h.2.2.1 "id" (by decide), h.2.2.2.2 rfl⟩

end Obsei
